import Mathlib

/-!
Shallow embedding of the user-profile cache service
(`backend/services.py`, `backend/models.py`, `backend/database.py`,
`backend/config.py`) and proofs about its cache-freshness protocol,
normalization and upsert discipline.

Modelling conventions:
* `datetime` values and `timedelta` durations are integers (`ℤ`);
  subtraction and ordering mirror Python datetime arithmetic, with the
  time unit chosen as minutes (so `timedelta(minutes=m)` is the integer
  `m`); Python datetimes are themselves discrete (microsecond
  resolution), so a discrete time axis is faithful.
* Every place where the Python code reads the ambient clock
  (`datetime.now(timezone.utc)`) becomes an explicit `now : ℤ` argument:
  the clock is threaded state.  One service call reads the clock a small
  number of times in immediate succession; the model gives every read in
  one call the same instant `now`.
* The database session is a list of rows (`Store`); `query(User).filter
  (User.id == i).first()` is a `List.find?`.  A `commit` enforces the
  `users` table's constraints the way PostgreSQL does: the primary key
  on `id` and the unique constraint on `username` (`database.py` line
  17).  A violating commit raises `IntegrityError` and the transaction
  rolls back, leaving the table unchanged; a successful commit of an
  ORM field update rewrites the matching row in place, and of an added
  row appends it.
* The upstream HTTP fetch is an external collaborator: its outcome for
  the single fixed resource URL is a parameter
  `up : Except UpstreamError UpstreamUserData`.  The fetch takes no
  arguments in the code (`UPSTREAM_API_URL` is one fixed resource), so
  `up` does not depend on any requested user id.
* Exceptions propagate: operations return the final store paired with an
  `Except`.  The service layer catches nothing, so both a fetch failure
  and an `IntegrityError` escaping from `db.commit()` reach the caller;
  in either case no write has been committed (the fetch precedes the
  write, and a failed commit rolls back), so the model returns the input
  store alongside the error.
-/

/-- `CACHE_DURATION_MINUTES` from `backend/config.py` (default `"10"`),
as a duration in the model's time unit (minutes). -/
def CACHE_DURATION_MINUTES : ℤ := 10

/-- A persisted row of the `users` table (`backend/database.py`).
`company_name` is the one nullable column; `updated_at` is stored as an
`Option` because `is_cache_stale` tests it for absence. -/
structure User where
  id : Int
  name : String
  username : String
  email : String
  website : String
  company_name : Option String
  updated_at : Option ℤ
  deriving Repr, DecidableEq

/-- The transient upstream payload (`UpstreamUserData` in
`backend/models.py`).  The nested `company` dict is an association
list. -/
structure UpstreamUserData where
  id : Int
  name : String
  username : String
  email : String
  website : String
  company : List (String × String)
  deriving Repr, DecidableEq

/-- The outbound response (`UserResponse` in `backend/models.py`). -/
structure UserResponse where
  name : String
  username : String
  email : String
  website : String
  companyName : String
  deriving Repr, DecidableEq

/-- The database state: the rows of the `users` table in insertion
order. -/
abbrev Store := List User

/-- The kinds of failure `fetch_from_upstream` can raise: a network
error from `client.get`, a non-2xx status from `raise_for_status`, or a
body that does not parse into `UpstreamUserData`. -/
inductive UpstreamError where
  | networkError
  | httpStatusError
  | parseError
  deriving Repr, DecidableEq

/-- What a `get_user` / `refresh_user` call can raise to its caller:
an upstream fetch failure, or a `sqlalchemy.exc.IntegrityError`
escaping from `db.commit()` inside the upsert.  The service methods
contain no handler for either. -/
inductive ServiceError where
  | upstream (e : UpstreamError)
  | integrityError
  deriving Repr, DecidableEq

/-- `self.db.query(User).filter(User.id == i).first()`. -/
def db_query_id (db : Store) (i : Int) : Option User :=
  db.find? (fun u => u.id == i)

/-- Python `s.startswith(p)` on strings, via the character lists. -/
def str_starts_with (s p : String) : Bool :=
  List.isPrefixOf p.data s.data

/-- `UserService.is_cache_stale` (`services.py` lines 14-21), with the
ambient clock read `datetime.now(timezone.utc)` made the explicit
argument `now` and the module-level `CACHE_DURATION_MINUTES` the
explicit argument `cache_duration`.  `if not updated_at` is the absence
test (a `datetime` object is always truthy). -/
def is_cache_stale (updated_at : Option ℤ) (now : ℤ) (cache_duration : ℤ) : Bool :=
  match updated_at with
  | none => true
  | some t => decide (now - t > cache_duration)

/-- The code's actual callable: `is_cache_stale(self, updated_at)` reads
`now` from the ambient clock inside the body and the TTL from module
configuration.  `clock_now` stands for the wall-clock instant at which
the call happens; it is hidden state of the runtime, not a caller
argument. -/
def is_cache_stale_code (updated_at : Option ℤ) (clock_now : ℤ) : Bool :=
  is_cache_stale updated_at clock_now CACHE_DURATION_MINUTES

/-- `UserService.normalize_website` (`services.py` lines 31-39):
empty string passes through, a string starting with `http://` or
`https://` passes through, anything else gets `https://` prepended. -/
def normalize_website (website : String) : String :=
  if website = "" then ""
  else if str_starts_with website "http://" || str_starts_with website "https://" then website
  else "https://" ++ website

/-- `user_data.company.get('name', '') if user_data.company else ''`
inside `upsert_user`: an empty dict is falsy, and a missing `name` key
defaults to the empty string. -/
def company_name_of (company : List (String × String)) : String :=
  if company.isEmpty then ""
  else match company.lookup "name" with
       | some v => v
       | none => ""

/-- `UserService.fetch_from_upstream` (`services.py` lines 23-29): one
GET of the fixed `UPSTREAM_API_URL`, no parameters; the outcome of that
single fixed request is the collaborator state `up`. -/
def fetch_from_upstream (up : Except UpstreamError UpstreamUserData) :
    Except UpstreamError UpstreamUserData :=
  up

/-- The row `upsert_user` builds for the insert branch
(`User(id=..., ..., updated_at=current_time)`). -/
def new_user_row (d : UpstreamUserData) (now : ℤ) : User :=
  { id := d.id
    name := d.name
    username := d.username
    email := d.email
    website := normalize_website d.website
    company_name := some (company_name_of d.company)
    updated_at := some now }

/-- The field assignments of the update branch of `upsert_user` applied
to the existing row: every mutable column is overwritten, `updated_at`
is stamped, and the primary key `id` is left alone. -/
def updated_user_row (r : User) (d : UpstreamUserData) (now : ℤ) : User :=
  { r with
    name := d.name
    username := d.username
    email := d.email
    website := normalize_website d.website
    company_name := some (company_name_of d.company)
    updated_at := some now }

/-- The commit of the insert branch of `upsert_user` as the database
executes it: PostgreSQL checks the `users` table's constraints against
the table as it stands at commit time — the primary key on `id` and the
unique constraint on `username` (`database.py` line 17) — and raises
`IntegrityError` (`Except.error ()`) when the new row collides with an
existing row on either column. -/
def insert_commit (db : Store) (u : User) : Except Unit Store :=
  if db.any (fun r => r.id == u.id || r.username == u.username) then Except.error ()
  else Except.ok (db ++ [u])

/-- The commit of the update branch of `upsert_user`: the ORM emits
`UPDATE users SET ... WHERE id = ?`, rewriting the matching row in
place.  The row keeps its id, so only the unique `username` constraint
can fire: if a different row already holds the written username,
`db.commit()` raises `IntegrityError` and the transaction rolls back
(table unchanged). -/
def update_commit (db : Store) (i : Int) (d : UpstreamUserData) (now : ℤ) :
    Except Unit Store :=
  if db.any (fun r => r.id != i && r.username == d.username) then Except.error ()
  else Except.ok (db.map (fun r => if r.id == i then updated_user_row r d now else r))

/-- `UserService.upsert_user` (`services.py` lines 41-77) in the
sequential (race-free) case: look the row up by `id`; if found, assign
the new field values and commit; otherwise build a fresh row, `add` and
commit.  A commit that violates a table constraint raises
`IntegrityError`, which the method does not catch; on success the
post-write record (what the code returns after `refresh`) comes back
with the new table. -/
def upsert_user (db : Store) (now : ℤ) (d : UpstreamUserData) :
    Except Unit (Store × User) :=
  match db_query_id db d.id with
  | some existing =>
      match update_commit db d.id d now with
      | Except.ok db' => Except.ok (db', updated_user_row existing d now)
      | Except.error e => Except.error e
  | none =>
      match insert_commit db (new_user_row d now) with
      | Except.ok db' => Except.ok (db', new_user_row d now)
      | Except.error e => Except.error e

/-- `UserService.upsert_user` under the lookup/commit race: the lookup
runs against snapshot `db_lookup`, and by the time the write commits the
table is `db_commit` (a concurrent writer may have inserted the row in
between).  The code has no `except IntegrityError` handler, so a failing
commit propagates as `Except.error ()` to the caller. -/
def upsert_user_race (db_lookup db_commit : Store) (now : ℤ) (d : UpstreamUserData) :
    Except Unit (Store × User) :=
  match db_query_id db_lookup d.id with
  | some existing =>
      match update_commit db_commit d.id d now with
      | Except.ok db' => Except.ok (db', updated_user_row existing d now)
      | Except.error e => Except.error e
  | none =>
      match insert_commit db_commit (new_user_row d now) with
      | Except.ok db' => Except.ok (db', new_user_row d now)
      | Except.error e => Except.error e

/-- The `UserResponse(...)` constructor call shared by `get_user` and
`refresh_user`: `companyName=user.company_name or ''`. -/
def mk_response (u : User) : UserResponse :=
  { name := u.name
    username := u.username
    email := u.email
    website := u.website
    companyName := (u.company_name.getD "") }

/-- The miss-path tail of `get_user` (also the whole of `refresh_user`'s
write path): fetch from upstream, upsert the payload, answer with the
post-write record.  A fetch failure propagates before anything has been
committed; an `IntegrityError` from the upsert's commit propagates after
the transaction rolled back — in both cases the store comes back
unchanged next to the error. -/
def fetch_then_upsert (db : Store) (up : Except UpstreamError UpstreamUserData)
    (now : ℤ) : Store × Except ServiceError UserResponse :=
  match fetch_from_upstream up with
  | Except.error e => (db, Except.error (ServiceError.upstream e))
  | Except.ok d =>
      match upsert_user db now d with
      | Except.ok r => (r.1, Except.ok (mk_response r.2))
      | Except.error _ => (db, Except.error ServiceError.integrityError)

/-- `UserService.get_user` (`services.py` lines 102-118): look the row
up by the requested id; if there is no row, or the row is stale, or the
caller asked to bypass the cache, fetch-and-upsert; otherwise answer
from the stored row. -/
def get_user (db : Store) (up : Except UpstreamError UpstreamUserData)
    (now : ℤ) (user_id : Int) (bypass_cache : Bool) :
    Store × Except ServiceError UserResponse :=
  match db_query_id db user_id with
  | none => fetch_then_upsert db up now
  | some user =>
      if is_cache_stale user.updated_at now CACHE_DURATION_MINUTES || bypass_cache then
        fetch_then_upsert db up now
      else
        (db, Except.ok (mk_response user))

/-- `UserService.refresh_user` (`services.py` lines 120-131):
unconditionally fetch and upsert.  The `user_id` argument is accepted
and, as in the code, never used. -/
def refresh_user (db : Store) (up : Except UpstreamError UpstreamUserData)
    (now : ℤ) (user_id : Int) : Store × Except ServiceError UserResponse :=
  fetch_then_upsert db up now

/-! ## Helper lemmas -/

/-- `https://` is a prefix of `https://` followed by anything. -/
theorem starts_with_https_append (s : String) :
    str_starts_with ("https://" ++ s) "https://" = true := by
  unfold str_starts_with
  rw [ List.isPrefixOf_iff_prefix, String.data_append]
  exact List.prefix_append _ _

/-- Prepending `https://` never yields the empty string. -/
theorem https_append_ne_empty (s : String) : "https://" ++ s ≠ "" := by
  intro h
  have h' := congrArg String.data h
  rw [String.data_append] at h'
  have := (List.append_eq_nil.mp h').1
  simp [String.data] at this

/-- Rewriting, in place, every row whose id matches `i` with an
id-preserving function commutes with the point lookup by `i`. -/
theorem db_query_id_map_update (db : Store) (i : Int) (g : User → User)
    (hg : ∀ r, (g r).id = r.id) :
    db_query_id (db.map (fun r => if r.id == i then g r else r)) i
      = Option.map g (db_query_id db i) := by
  induction db with
  | nil => rfl
  | cons a tl ih =>
      unfold db_query_id at *
      cases h : a.id == i with
      | true =>
          rw [List.map_cons, if_pos h, List.find?_cons, List.find?_cons]
          simp only [hg, h]
          rfl
      | false =>
          rw [List.map_cons, if_neg (by simp [h]), List.find?_cons, List.find?_cons]
          simp only [hg, h]
          exact ih

/-! ## Claims -/

/-- C2: the staleness check returns true whenever the last-updated
timestamp is absent, and otherwise returns true exactly when
`now - last_updated` is strictly greater than the TTL; a record whose
age equals the TTL exactly is still fresh, and any strictly larger age
is stale. -/
theorem is_cache_stale_spec :
    (∀ (now d : ℤ), is_cache_stale none now d = true) ∧
    (∀ (t now d : ℤ), is_cache_stale (some t) now d = decide (now - t > d)) ∧
    (∀ (t0 d : ℤ), is_cache_stale (some t0) (t0 + d) d = false) ∧
    (∀ (t0 d eps : ℤ), 0 < eps →
        is_cache_stale (some t0) (t0 + d + eps) d = true) := by
  refine ⟨fun _ _ => rfl, fun _ _ _ => rfl, fun t0 d => ?_, fun t0 d eps heps => ?_⟩
  · simp [is_cache_stale]
  · simp [is_cache_stale]
    omega

/-- Witness for C2: with TTL 10, a record of age 11 is stale. -/
theorem is_cache_stale_spec_witness :
    (0:ℤ) < 1 ∧ is_cache_stale (some 0) (0 + 10 + 1) 10 = true :=
  ⟨by decide, is_cache_stale_spec.2.2.2 0 10 1 (by decide)⟩

/-- C6: website normalization passes through a string starting with
`http://` or `https://`, maps the empty string to the empty string, and
otherwise prepends `https://`; in particular on the three spec
examples. -/
theorem normalize_website_spec :
    (∀ s : String,
        str_starts_with s "http://" = true ∨ str_starts_with s "https://" = true →
        normalize_website s = s) ∧
    normalize_website "" = "" ∧
    (∀ s : String, s ≠ "" → str_starts_with s "http://" = false →
        str_starts_with s "https://" = false →
        normalize_website s = "https://" ++ s) ∧
    normalize_website "example.com" = "https://example.com" ∧
    normalize_website "http://example.com" = "http://example.com" := by
  refine ⟨fun s hs => ?_, rfl, fun s h0 h1 h2 => ?_, by decide, by decide⟩
  · by_cases h : s = ""
    · rw [h]; rfl
    · unfold normalize_website
      rw [if_neg h, if_pos]
      rcases hs with h1 | h1 <;> simp [h1]
  · unfold normalize_website
    rw [if_neg h0, if_neg]
    simp [h1, h2]

/-- Witness for C6: `foo.bar` has no scheme, so `https://` is
prepended; `http://example.com` already has one and passes through. -/
theorem normalize_website_spec_witness :
    normalize_website "foo.bar" = "https://" ++ "foo.bar" ∧
    normalize_website "http://example.com" = "http://example.com" :=
  ⟨normalize_website_spec.2.2.1 "foo.bar" (by decide) (by decide) (by decide),
   normalize_website_spec.1 "http://example.com" (Or.inl (by decide))⟩

/-- C8: website normalization is idempotent. -/
theorem normalize_website_idempotent (s : String) :
    normalize_website (normalize_website s) = normalize_website s := by
  by_cases h0 : s = ""
  · rw [h0]; rfl
  · unfold normalize_website
    rw [if_neg h0]
    by_cases h1 : (str_starts_with s "http://" || str_starts_with s "https://") = true
    · rw [if_pos h1, if_neg h0, if_pos h1]
    · rw [if_neg h1, if_neg (https_append_ne_empty s), if_pos]
      rw [starts_with_https_append]
      simp

/-- C9 counterexample: the claim that the code's freshness evaluator has
"no dependence on an ambient clock" is false.  `is_cache_stale(self,
updated_at)` takes only `updated_at` from its caller and reads `now =
datetime.now(timezone.utc)` inside its body; two runs with the same
explicit argument `some 0` but ambient-clock instants 5 and 20 (TTL 10)
return different booleans. -/
theorem is_cache_stale_ambient_clock_dependent :
    is_cache_stale_code (some 0) 5 = false ∧
    is_cache_stale_code (some 0) 20 = true ∧
    is_cache_stale_code (some 0) 5 ≠ is_cache_stale_code (some 0) 20 := by
  decide

/-- C9 amended: once the ambient clock read is made an explicit
argument, the evaluator is pure and fully determined by
(last_updated, now, ttl): it answers `true` exactly when the timestamp
is absent or `now - last_updated > ttl`, with no other state involved.
(In the code itself, `now` is the ambient wall clock at call time and
the ttl is module configuration, so the result does depend on when the
call happens.) -/
theorem is_cache_stale_pure_of_inputs (u : Option ℤ) (now d : ℤ) :
    is_cache_stale u now d = true ↔
      (u = none ∨ ∃ t, u = some t ∧ now - t > d) := by
  cases u with
  | none => simp [is_cache_stale]
  | some t => simp [is_cache_stale]

/-- C1: `get_user` serves the persisted record — without consulting the
upstream collaborator, for any state the collaborator may be in — iff a
record for the requested id exists, it is not stale, and no bypass was
requested; if any of {no record, stale record, bypass requested} holds,
it performs the fetch-then-upsert cycle before responding. -/
theorem get_user_read_path (db : Store) (up : Except UpstreamError UpstreamUserData)
    (now : ℤ) (uid : Int) (bypass : Bool) :
    (∀ u, db_query_id db uid = some u →
        is_cache_stale u.updated_at now CACHE_DURATION_MINUTES = false →
        bypass = false →
        get_user db up now uid bypass = (db, Except.ok (mk_response u))) ∧
    ((db_query_id db uid = none ∨
        ∃ u, db_query_id db uid = some u ∧
          (is_cache_stale u.updated_at now CACHE_DURATION_MINUTES = true ∨
           bypass = true)) →
      get_user db up now uid bypass = fetch_then_upsert db up now) := by
  constructor
  · intro u hu hfresh hbp
    simp [get_user, hu, hfresh, hbp]
  · intro h
    rcases h with h | ⟨u, hu, h⟩
    · simp [get_user, h]
    · rcases h with h | h <;> simp [get_user, hu, h]

/-- C4: `refresh_user(id)` and `get_user(id, bypass_cache=True)` agree
on every store, collaborator state and clock instant: same response and
same final store. -/
theorem refresh_user_eq_get_user_bypass (db : Store)
    (up : Except UpstreamError UpstreamUserData) (now : ℤ) (uid : Int) :
    refresh_user db up now uid = get_user db up now uid true := by
  unfold refresh_user get_user
  cases h : db_query_id db uid with
  | none => rfl
  | some u => simp

/-- C7: when the upstream fetch fails, `get_user` and `refresh_user`
leave the store exactly as it was: the hit path of `get_user` never
fetches, and on every other path the error propagates before any write,
so the operation returns the unchanged store with the error. -/
theorem fetch_failure_leaves_store_unchanged (db : Store) (now : ℤ) (uid : Int)
    (bypass : Bool) (e : UpstreamError) :
    (get_user db (Except.error e) now uid bypass).1 = db ∧
    (refresh_user db (Except.error e) now uid).1 = db ∧
    (refresh_user db (Except.error e) now uid).2
        = Except.error (ServiceError.upstream e) ∧
    ((get_user db (Except.error e) now uid bypass).2
        = Except.error (ServiceError.upstream e) ∨
      ∃ u, db_query_id db uid = some u ∧
        (get_user db (Except.error e) now uid bypass).2
          = Except.ok (mk_response u)) := by
  refine ⟨?_, rfl, rfl, ?_⟩
  · unfold get_user
    cases h : db_query_id db uid with
    | none => rfl
    | some u =>
        by_cases hs : (is_cache_stale u.updated_at now CACHE_DURATION_MINUTES || bypass) = true
        · simp [hs, fetch_then_upsert, fetch_from_upstream]
        · simp [hs]
  · unfold get_user
    cases h : db_query_id db uid with
    | none => exact Or.inl rfl
    | some u =>
        by_cases hs : (is_cache_stale u.updated_at now CACHE_DURATION_MINUTES || bypass) = true
        · left
          simp [hs, fetch_then_upsert, fetch_from_upstream]
        · right
          exact ⟨u, rfl, by simp [hs]⟩

/-- Witness for C1: with a fresh row for id 1 stored (written at
instant 0, read at instant 5, TTL 10) and no bypass, `get_user` answers
from the store even though the upstream collaborator is down. -/
theorem get_user_read_path_witness :
    get_user
        [⟨1, "Leanne Graham", "Bret", "Sincere@april.biz",
          "https://hildegard.org", some "Romaguera-Crona", some 0⟩]
        (Except.error UpstreamError.networkError) 5 1 false
      = ([⟨1, "Leanne Graham", "Bret", "Sincere@april.biz",
           "https://hildegard.org", some "Romaguera-Crona", some 0⟩],
         Except.ok (mk_response
           ⟨1, "Leanne Graham", "Bret", "Sincere@april.biz",
            "https://hildegard.org", some "Romaguera-Crona", some 0⟩)) :=
  (get_user_read_path
      [⟨1, "Leanne Graham", "Bret", "Sincere@april.biz",
        "https://hildegard.org", some "Romaguera-Crona", some 0⟩]
      (Except.error UpstreamError.networkError) 5 1 false).1
    ⟨1, "Leanne Graham", "Bret", "Sincere@april.biz",
      "https://hildegard.org", some "Romaguera-Crona", some 0⟩
    (by decide) (by decide) rfl

/-- C5 counterexample: the claim does not hold for every store state.
At a store whose only row holds the payload's username under a
different id, the insert branch's commit violates the unique
constraint on `users.username` (`database.py` line 17): `db.commit()`
raises `IntegrityError`, so nothing is written and no post-write record
is returned. -/
theorem upsert_user_username_collision :
    upsert_user
        [⟨2, "Other Person", "Bret", "other@example.org",
          "https://other.example", none, some 0⟩] 7
        ⟨1, "Leanne Graham", "Bret", "Sincere@april.biz", "hildegard.org",
         [("name", "Romaguera-Crona")]⟩
      = Except.error () := by
  rfl

/-- C5 (amended): the upsert looks the record up by id (not username).
Provided no other row holds the payload's username under a different
id — otherwise the unique `username` constraint makes the commit raise
`IntegrityError` instead, writing nothing — the found branch overwrites
every mutable field of that same row, stamps `updated_at = now`,
preserves the primary key and the rows with other ids; the not-found
branch appends a new row carrying the payload's id, all fields and
`updated_at = now`; in both cases the value returned is the post-write
record found under that id. -/
theorem upsert_user_spec (db : Store) (now : ℤ) (d : UpstreamUserData) :
    (∀ existing, db_query_id db d.id = some existing →
        (∀ r ∈ db, r.id ≠ d.id → r.username ≠ d.username) →
        ∃ db' u, upsert_user db now d = Except.ok (db', u) ∧
          u.id = existing.id ∧
          u.name = d.name ∧
          u.username = d.username ∧
          u.email = d.email ∧
          u.website = normalize_website d.website ∧
          u.company_name = some (company_name_of d.company) ∧
          u.updated_at = some now ∧
          (∀ r ∈ db, r.id ≠ d.id → r ∈ db') ∧
          db_query_id db' d.id = some u) ∧
    (db_query_id db d.id = none →
        (∀ r ∈ db, r.username ≠ d.username) →
        ∃ db' u, upsert_user db now d = Except.ok (db', u) ∧
          u.id = d.id ∧
          u.name = d.name ∧
          u.username = d.username ∧
          u.email = d.email ∧
          u.website = normalize_website d.website ∧
          u.company_name = some (company_name_of d.company) ∧
          u.updated_at = some now ∧
          db' = db ++ [new_user_row d now] ∧
          db_query_id db' d.id = some u) ∧
    ((∃ r ∈ db, r.id ≠ d.id ∧ r.username = d.username) →
        upsert_user db now d = Except.error ()) := by
  refine ⟨?_, ?_, ?_⟩
  · intro existing h hc
    have hno : ¬ (db.any (fun r => r.id != d.id && r.username == d.username) = true) := by
      simp only [List.any_eq_true, Bool.and_eq_true, bne_iff_ne, beq_iff_eq]
      rintro ⟨r, hr, hne, hueq⟩
      exact hc r hr hne hueq
    have hcommit : update_commit db d.id d now
        = Except.ok (db.map (fun r => if r.id == d.id then updated_user_row r d now else r)) := by
      unfold update_commit
      rw [if_neg hno]
    refine ⟨db.map (fun r => if r.id == d.id then updated_user_row r d now else r),
      updated_user_row existing d now, ?_, rfl, rfl, rfl, rfl, rfl, rfl, rfl, ?_, ?_⟩
    · unfold upsert_user
      rw [h, hcommit]
    · intro r hr hne
      have : (if r.id == d.id then updated_user_row r d now else r) = r := by
        rw [if_neg]
        simp [hne]
      exact this ▸ List.mem_map_of_mem _ hr
    · rw [db_query_id_map_update db d.id (fun r => updated_user_row r d now)
        (fun r => rfl), h]
      rfl
  · intro h hc
    have hno : ¬ (db.any (fun r => r.id == (new_user_row d now).id
        || r.username == (new_user_row d now).username) = true) := by
      simp only [List.any_eq_true, Bool.or_eq_true, beq_iff_eq, new_user_row]
      rintro ⟨r, hr, hcase⟩
      rcases hcase with hid | hu
      · have hnone := List.find?_eq_none.mp h r hr
        simp [hid] at hnone
      · exact hc r hr hu
    have hcommit : insert_commit db (new_user_row d now)
        = Except.ok (db ++ [new_user_row d now]) := by
      unfold insert_commit
      rw [if_neg hno]
    refine ⟨db ++ [new_user_row d now], new_user_row d now,
      ?_, rfl, rfl, rfl, rfl, rfl, rfl, rfl, rfl, ?_⟩
    · unfold upsert_user
      rw [h, hcommit]
    · unfold db_query_id at *
      rw [List.find?_append, h]
      simp [new_user_row]
  · rintro ⟨r, hr, hne, hueq⟩
    unfold upsert_user
    cases h : db_query_id db d.id with
    | some existing =>
        have hcommit : update_commit db d.id d now = Except.error () := by
          unfold update_commit
          rw [if_pos]
          simp only [List.any_eq_true, Bool.and_eq_true, bne_iff_ne, beq_iff_eq]
          exact ⟨r, hr, hne, hueq⟩
        rw [hcommit]
    | none =>
        have hcommit : insert_commit db (new_user_row d now) = Except.error () := by
          unfold insert_commit
          rw [if_pos]
          simp only [List.any_eq_true, Bool.or_eq_true, beq_iff_eq, new_user_row]
          exact ⟨r, hr, Or.inr hueq⟩
        rw [hcommit]

/-- Witness for C5 (amended): the update branch on a one-row store with
the payload's id succeeds and stamps `updated_at`; the insert branch on
the empty store appends the payload's row and returns it. -/
theorem upsert_user_spec_witness :
    (∃ db' u,
        upsert_user
            [⟨1, "Old Name", "old", "old@old.org", "https://old.org", none, some 0⟩]
            7 ⟨1, "Leanne Graham", "Bret", "Sincere@april.biz", "hildegard.org",
               [("name", "Romaguera-Crona")]⟩
          = Except.ok (db', u) ∧ u.updated_at = some 7) ∧
    upsert_user [] 7 ⟨1, "Leanne Graham", "Bret", "Sincere@april.biz",
        "hildegard.org", [("name", "Romaguera-Crona")]⟩
      = Except.ok ([new_user_row ⟨1, "Leanne Graham", "Bret", "Sincere@april.biz",
          "hildegard.org", [("name", "Romaguera-Crona")]⟩ 7],
        new_user_row ⟨1, "Leanne Graham", "Bret", "Sincere@april.biz",
          "hildegard.org", [("name", "Romaguera-Crona")]⟩ 7) := by
  constructor
  · obtain ⟨db', u, he, _, _, _, _, _, _, hup, _, _⟩ :=
      (upsert_user_spec
        [⟨1, "Old Name", "old", "old@old.org", "https://old.org", none, some 0⟩]
        7 ⟨1, "Leanne Graham", "Bret", "Sincere@april.biz", "hildegard.org",
           [("name", "Romaguera-Crona")]⟩).1
        ⟨1, "Old Name", "old", "old@old.org", "https://old.org", none, some 0⟩
        (by decide) (by decide)
    exact ⟨db', u, he, hup⟩
  · rfl

/-- C3: `upsert_user` has no handler for the primary-key race.  When the
lookup snapshot has no row for id 1 but a concurrent writer has
committed a row with id 1 before our INSERT commits, the commit raises
`IntegrityError` and the code propagates it to the caller instead of
resolving the conflict to an update (the `except IntegrityError` the
spec requires is absent from `services.py`). -/
theorem upsert_user_race_raises_integrity_error :
    upsert_user_race []
        [new_user_row ⟨1, "Leanne Graham", "Bret", "Sincere@april.biz",
            "hildegard.org", [("name", "Romaguera-Crona")]⟩ 0]
        5
        ⟨1, "Leanne Graham", "Bret", "Sincere@april.biz",
            "hildegard.org", [("name", "Romaguera-Crona")]⟩
      = Except.error () := by
  rfl

/-- C10 counterexample: the claim does not hold for every store lacking
the payload's id.  When an existing row holds the payload's username
under a different id, `get_user(2)` still takes the miss path and
fetches, but the upsert's INSERT violates the unique `username`
constraint: `IntegrityError` propagates, no record is created or
returned, and the store is unchanged. -/
theorem get_user_miss_username_collision :
    get_user
        [⟨3, "Other Person", "Bret", "other@example.org",
          "https://other.example", none, some 0⟩]
        (Except.ok ⟨1, "Leanne Graham", "Bret", "Sincere@april.biz",
          "hildegard.org", [("name", "Romaguera-Crona")]⟩) 5 2 false
      = ([⟨3, "Other Person", "Bret", "other@example.org",
           "https://other.example", none, some 0⟩],
         Except.error ServiceError.integrityError) := by
  rfl

/-- C10 (amended): whenever `get_user` takes the miss path, it performs
the parameterless fetch of the single fixed upstream resource and
upserts under the id carried by the upstream payload, not under the
requested `user_id`.  Provided no stored row holds the payload's
username — otherwise the unique `username` constraint makes the insert
commit raise `IntegrityError` and nothing is persisted — the created
row is the payload's row, the response is its view, and when the
requested id differs from the payload id no row for the requested id
comes into existence. -/
theorem get_user_miss_keyed_by_payload_id (db : Store) (now : ℤ) (uid : Int)
    (bypass : Bool) (d : UpstreamUserData) :
    db_query_id db uid = none →
      (∀ up, get_user db up now uid bypass = fetch_then_upsert db up now) ∧
      (db_query_id db d.id = none →
        (∀ r ∈ db, r.username ≠ d.username) →
        get_user db (Except.ok d) now uid bypass
            = (db ++ [new_user_row d now],
               Except.ok (mk_response (new_user_row d now))) ∧
        (new_user_row d now).id = d.id ∧
        db_query_id (db ++ [new_user_row d now]) d.id
            = some (new_user_row d now) ∧
        (uid ≠ d.id →
          db_query_id (db ++ [new_user_row d now]) uid = none)) := by
  intro h
  constructor
  · intro up
    simp [get_user, h]
  · intro hd hc
    have hno : ¬ (db.any (fun r => r.id == (new_user_row d now).id
        || r.username == (new_user_row d now).username) = true) := by
      simp only [List.any_eq_true, Bool.or_eq_true, beq_iff_eq, new_user_row]
      rintro ⟨r, hr, hcase⟩
      rcases hcase with hid | hu
      · have hnone := List.find?_eq_none.mp hd r hr
        simp [hid] at hnone
      · exact hc r hr hu
    have hcommit : insert_commit db (new_user_row d now)
        = Except.ok (db ++ [new_user_row d now]) := by
      unfold insert_commit
      rw [if_neg hno]
    refine ⟨?_, rfl, ?_, ?_⟩
    · simp [get_user, h, fetch_then_upsert, fetch_from_upstream, upsert_user, hd,
        hcommit]
    · unfold db_query_id at *
      rw [List.find?_append, hd]
      simp [new_user_row]
    · intro hne
      unfold db_query_id at *
      rw [List.find?_append, h]
      simp [new_user_row, Ne.symm hne]

/-- Witness for C10 (amended): requesting id 2 on the empty store
persists and returns the upstream payload's row (id 1); no row for id 2
exists afterwards. -/
theorem get_user_miss_keyed_by_payload_id_witness :
    (get_user [] (Except.ok ⟨1, "Leanne Graham", "Bret", "Sincere@april.biz",
          "hildegard.org", [("name", "Romaguera-Crona")]⟩) 5 2 false
        = ([new_user_row ⟨1, "Leanne Graham", "Bret", "Sincere@april.biz",
             "hildegard.org", [("name", "Romaguera-Crona")]⟩ 5],
           Except.ok (mk_response (new_user_row
             ⟨1, "Leanne Graham", "Bret", "Sincere@april.biz",
              "hildegard.org", [("name", "Romaguera-Crona")]⟩ 5)))) ∧
    db_query_id [new_user_row ⟨1, "Leanne Graham", "Bret", "Sincere@april.biz",
          "hildegard.org", [("name", "Romaguera-Crona")]⟩ 5] 2 = none := by
  have h := (get_user_miss_keyed_by_payload_id [] 5 2 false
      ⟨1, "Leanne Graham", "Bret", "Sincere@april.biz",
       "hildegard.org", [("name", "Romaguera-Crona")]⟩ rfl).2 rfl (by simp)
  exact ⟨by simpa using h.1, by simpa using (h.2.2.2) (by decide)⟩
